import Mathlib

set_option maxRecDepth 40000

/-!
Verification of the image-compression tool (src/tools/image-compression.py,
class ImageCompressionTool).

Shallow embedding conventions:
* Byte strings (Python bytes) are lists of naturals.
* PIL images are represented by a free term type FImg recording the decoded
  base image (declared format, mode, pixel dimensions) together with the PIL
  operations the tool applies to it (resize, convert, quantize, adaptive
  palette conversion).  The mode/size semantics of those operations is the
  real PIL semantics: convert sets the mode, quantize and the adaptive P
  conversion produce P-mode images, resize keeps the mode.
* The PIL byte-level encoders and the decoder are oracle parameters (PilEnv):
  the tool only observes their output bytes, so any property of the tool that
  holds must hold for every oracle.  An oracle returning none models the
  corresponding PIL call raising an exception.
* datetime.now()/uuid4() are modelled by the ts/uid fields of the oracle
  environment; only the shape of the generated filenames matters to the tool.
* Python float literals in the source (1.2, 0.8, 0.05) only ever occur in
  comparisons between integers scaled by them; they are modelled by the exact
  integer comparisons (6*t < 5*s for s > t*1.2, 5*j < 4*s for j < s*0.8,
  20*d < t for d/t < 0.05).  Python int(x) on a nonnegative quantity is
  floor, i.e. natural division.
* The target size parameter of the tool entry point is modelled as a natural
  number of mebibytes; byte targets inside the search are naturals.  The
  quality heuristic keeps its exact float signature via the rationals.
-/

/-- Byte strings of the Python code as lists of naturals. -/
abbrev Bytes := List Nat

/-- Python str.lower on format names, as a structurally recursive map so
that concrete runs reduce in the kernel. -/
def lowerString (s : String) : String := ⟨s.data.map Char.toLower⟩

/-- Python str.upper on format names, as a structurally recursive map so
that concrete runs reduce in the kernel. -/
def upperString (s : String) : String := ⟨s.data.map Char.toUpper⟩

deriving instance DecidableEq for Except

/-- Free representation of a PIL image as used by the tool: the decoded base
image plus the PIL operations applied to it. -/
inductive FImg where
  | base (fmt : Option String) (mode : String) (w h : Nat)
  | resize (i : FImg) (w h : Nat)
  | convert (i : FImg) (mode : String)
  | quantize (i : FImg) (colors : Nat)
  | convertP (i : FImg) (colors : Nat)
  deriving DecidableEq, Repr

/-- PIL mode of an image term: convert sets the mode, quantize and adaptive
palette conversion give P-mode images, resize keeps the mode. -/
def FImg.mode : FImg → String
  | .base _ m _ _ => m
  | .resize i _ _ => i.mode
  | .convert _ m => m
  | .quantize _ _ => "P"
  | .convertP _ _ => "P"

/-- Pixel width of an image term. -/
def FImg.width : FImg → Nat
  | .base _ _ w _ => w
  | .resize _ w _ => w
  | .convert i _ => i.width
  | .quantize i _ => i.width
  | .convertP i _ => i.width

/-- Pixel height of an image term. -/
def FImg.height : FImg → Nat
  | .base _ _ _ h => h
  | .resize _ _ h => h
  | .convert i _ => i.height
  | .quantize i _ => i.height
  | .convertP i _ => i.height

/-- Declared PIL format of an image term; only a freshly decoded image
carries one (PIL sets format to None on derived images). -/
def FImg.fmt : FImg → Option String
  | .base f _ _ _ => f
  | _ => none

/-- Colors argument of the quantize call visible through trailing convert
calls, used to observe which palette size a pipeline used. -/
def FImg.quantColors : FImg → Option Nat
  | .convert i _ => i.quantColors
  | .quantize _ c => some c
  | _ => none

/-- Result dictionary of the compression routines.  The compressed field is
the optional "compressed" key (absent on most return paths). -/
structure CompressResult where
  file : Bytes
  format : String
  size : Nat
  filename : String
  compressed : Option Bool
  deriving DecidableEq, Repr

/-- Oracle environment for the external PIL calls and the nondeterministic
filename ingredients.  A none result models the PIL call raising. -/
structure PilEnv where
  decode : Bytes → Option FImg
  savePng : FImg → Nat → Option Bytes
  save : FImg → String → Nat → Option Bytes
  ts : String
  uid : String

/-- Blob message emitted per image by the tool entry point. -/
structure BlobMessage where
  blob : Bytes
  filename : String
  mime_type : String
  size : Nat
  deriving DecidableEq, Repr

/-- Embedding of calculate_compression_quality (lines 16-40).  The source
computes int(100 * target_size_bytes / original_size) on a positive float,
which is the floor. -/
def calculate_compression_quality (original_size : Nat) (target_size_mb : ℚ) : Nat :=
  let target_size_bytes : ℚ := target_size_mb * 1024 * 1024
  if 0 < target_size_mb ∧ target_size_bytes < (original_size : ℚ) then
    let quality : ℤ := ⌊100 * target_size_bytes / (original_size : ℚ)⌋
    (if quality < 1 then 1 else if 100 < quality then 100 else quality).toNat
  else
    95

/-- Quality to PNG compress_level mapping of compress_png (lines 102-105);
int(quality / 10) on a natural is natural division. -/
def png_compress_level (quality : Nat) : Nat :=
  if quality ≤ 10 then 9 else 9 - min 9 (quality / 10)

/-- Downscale and lossy preprocessing stage of compress_png (lines 110-140).
The resize ratio computation int(orig * (1500 / maxdim)) is modelled by the
exact floor orig * 1500 / maxdim. -/
def png_preprocess (img0 : FImg) (quality : Nat) : FImg :=
  let origW := img0.width
  let origH := img0.height
  let has_alpha := img0.mode = "RGBA"
  let img :=
    if 1500 < max origW origH then
      FImg.resize img0 (origW * 1500 / max origW origH) (origH * 1500 / max origW origH)
    else img0
  if has_alpha then
    if quality < 50 then
      FImg.convert (FImg.quantize (FImg.convert img "RGBA") 256) "RGBA"
    else img
  else
    let img := if img.mode ≠ "RGB" then FImg.convert img "RGB" else img
    if quality < 60 then
      let colors := if 30 < quality then 256 else 128
      FImg.convert (FImg.quantize img colors) "RGB"
    else img

/-- Python min(attempts, key=len): the first element of least length. -/
def pyMinByLen (attempts : List Bytes) : Bytes :=
  attempts.foldl (fun acc x => if x.length < acc.length then x else acc) (attempts.headD [])

/-- Embedding of compress_png (lines 91-173).  The standard save is not
guarded by a try, so its failure propagates (to the except of
compress_image); the reduced P-mode attempt (lines 154-163) swallows its
failure. -/
def compress_png (env : PilEnv) (img0 : FImg) (quality : Nat) (filename : String) :
    Except String CompressResult :=
  let compress_level := png_compress_level quality
  let has_alpha := img0.mode = "RGBA"
  let img := png_preprocess img0 quality
  match env.savePng img compress_level with
  | none => .error "Image compression failed"
  | some standard =>
    let attempts :=
      if quality < 50 ∧ ¬has_alpha then
        match env.savePng (FImg.convertP img 256) compress_level with
        | some reduced => [standard, reduced]
        | none => [standard]
      else [standard]
    let best_result := pyMinByLen attempts
    .ok { file := best_result, format := "PNG", size := best_result.length,
          filename := filename, compressed := none }

/-- Effective format string: getattr(img, "format", "JPEG") followed by the
falsy check for None or the empty string (lines 56-58, 200-202). -/
def effFormat (img : FImg) : String :=
  match img.fmt with
  | none => "JPEG"
  | some f => if f = "" then "JPEG" else f

/-- Embedding of compress_image (lines 42-89).  Any PIL failure inside the
body is re-raised as a ValueError; the error payload string is irrelevant to
the tool and fixed here. -/
def compress_image (env : PilEnv) (image_file : Bytes) (quality : Nat) :
    Except String CompressResult :=
  match env.decode image_file with
  | none => .error "Image compression failed"
  | some img =>
    let img_format := effFormat img
    let filename := "compressed_" ++ env.ts ++ "_" ++ env.uid ++ "." ++ lowerString img_format
    if upperString img_format = "PNG" then
      compress_png env img quality filename
    else
      let img2 := if img.mode ≠ "RGB" then FImg.convert img "RGB" else img
      match env.save img2 img_format quality with
      | none => .error "Image compression failed"
      | some bytes =>
        .ok { file := bytes, format := img_format, size := bytes.length,
              filename := filename, compressed := none }

/-- Absolute difference of two naturals, the abs(current - target) of
line 263 on Python integers. -/
def natAbsDiff (a b : Nat) : Nat :=
  if b ≤ a then a - b else b - a

/-- Best-so-far update of the search loop (line 259): the first result is
always stored; afterwards a result replaces the stored one only when it is
at most the target and strictly larger than the stored size. -/
def track_best (target_size_bytes : Nat) (best_result : Option CompressResult)
    (result : CompressResult) : Option CompressResult :=
  match best_result with
  | none => some result
  | some b =>
    if result.size ≤ target_size_bytes ∧ b.size < result.size then some result else some b

/-- Outcome of the bounded binary-search loop of iterative_compress_image:
either the early in-band return of the current result (line 264), or the
fall-through with the tracked best result and the final lower quality bound
(lines 276, 280, 282). -/
inductive LoopOut where
  | ret (r : CompressResult)
  | done (best_result : Option CompressResult) (min_quality : Nat)
  deriving DecidableEq, Repr

/-- Embedding of the non-PNG binary-search loop of iterative_compress_image
(lines 246-280), by recursion on the remaining iterations.  The arguments
after the target are fuel, quality, min_quality, max_quality, best_result.
A compression exception breaks out of the loop; target = 0 would make the
five-percent test raise ZeroDivisionError, which the same except catches. -/
def iter_loop (env : PilEnv) (image_file : Bytes) (target_size_bytes : Nat) :
    Nat → Nat → Nat → Nat → Option CompressResult → LoopOut
  | 0, _, min_quality, _, best_result => .done best_result min_quality
  | fuel + 1, quality, min_quality, max_quality, best_result =>
    match compress_image env image_file quality with
    | .error _ => .done best_result min_quality
    | .ok result =>
      let current_size := result.size
      let best' := track_best target_size_bytes best_result result
      if target_size_bytes = 0 then .done best' min_quality
      else if 20 * natAbsDiff current_size target_size_bytes < target_size_bytes then
        .ret result
      else if target_size_bytes < current_size then
        if quality - min_quality ≤ 3 then .done best' min_quality
        else iter_loop env image_file target_size_bytes fuel
          ((min_quality + quality) / 2) min_quality quality best'
      else
        if max_quality - quality ≤ 3 then .done best' quality
        else iter_loop env image_file target_size_bytes fuel
          ((quality + max_quality) / 2) quality max_quality best'

/-- Stages 1-2 of the PNG escalation of iterative_compress_image (lines
204-217): encode at quality 5, and when still above 1.2 times the target
(exactly: 6 * target < 5 * size) retry at quality 1 keeping the smaller.
Stage 1 exceptions propagate; stage 2 exceptions are swallowed. -/
def png_stage12 (env : PilEnv) (image_file : Bytes) (target_size_bytes : Nat) :
    Except String CompressResult :=
  match compress_image env image_file 5 with
  | .error e => .error e
  | .ok result =>
    if 6 * target_size_bytes < 5 * result.size then
      match compress_image env image_file 1 with
      | .ok secondary => .ok (if secondary.size < result.size then secondary else result)
      | .error _ => .ok result
    else .ok result

/-- Stage 3 of the PNG escalation (lines 219-244): an optional JPEG re-encode
when the PNG result still exceeds the target and the image mode is not RGBA.
The quality is min(70, int(70 * target / size)) then clamped up to 40; the
JPEG is accepted only when strictly below 0.8 times the PNG size (exactly:
5 * jpeg < 4 * size).  All failures keep the PNG result. -/
def png_jpeg_fallback (env : PilEnv) (img : FImg) (target_size_bytes : Nat)
    (result : CompressResult) : CompressResult :=
  if target_size_bytes < result.size ∧ img.mode ≠ "RGBA" then
    match env.save (FImg.convert img "RGB") "JPEG"
        (max (min 70 (70 * target_size_bytes / result.size)) 40) with
    | none => result
    | some jb =>
      if 5 * jb.length < 4 * result.size then
        { file := jb, format := "JPEG", size := jb.length,
          filename := "compressed_" ++ env.ts ++ "_" ++ env.uid ++ ".jpg",
          compressed := none }
      else result
  else result

/-- Embedding of iterative_compress_image (lines 175-283): passthrough for
sources already at or under the target, the PNG escalation, or the bounded
binary search with its final fallback encode at min_quality when no
iteration produced any result. -/
def iterative_compress_image (env : PilEnv) (image_file : Bytes) (target_size_bytes : Nat)
    (initial_quality : Nat) (max_iterations : Nat) : Except String CompressResult :=
  if image_file.length ≤ target_size_bytes then
    .ok { file := image_file, format := "JPEG", size := image_file.length,
          filename := "original_" ++ env.ts ++ "_" ++ env.uid ++ ".jpg",
          compressed := some false }
  else
    match env.decode image_file with
    | none => .error "Image compression failed"
    | some img =>
      if upperString (effFormat img) = "PNG" then
        match png_stage12 env image_file target_size_bytes with
        | .error e => .error e
        | .ok result => .ok (png_jpeg_fallback env img target_size_bytes result)
      else
        match iter_loop env image_file target_size_bytes max_iterations
            initial_quality 1 100 none with
        | .ret r => .ok r
        | .done (some b) _ => .ok b
        | .done none min_quality => compress_image env image_file min_quality

/-- Compression dispatch of the tool entry point _invoke (lines 334-347):
iterative compression only when a positive target is given and the source
exceeds it, otherwise a single encode at quality 95. -/
def invoke_compress (env : PilEnv) (input : Bytes) (target_size : Nat) :
    Except String CompressResult :=
  if 0 < target_size ∧ target_size * 1024 * 1024 < input.length then
    iterative_compress_image env input (target_size * 1024 * 1024)
      (calculate_compression_quality input.length (target_size : ℚ)) 5
  else
    compress_image env input 95

/-- Per-image tail of _invoke (lines 334-363): run the dispatch, then the
safety check replacing a result larger than the original by the original
bytes and metadata.  srcMeta carries filename and mime type of a File input;
none models a raw bytes input with the literal defaults. -/
def invoke_one (env : PilEnv) (input : Bytes) (srcMeta : Option (String × String))
    (target_size : Nat) : Except String BlobMessage :=
  let original_size := input.length
  match invoke_compress env input target_size with
  | .error e => .error e
  | .ok c =>
    if original_size < c.size then
      .ok { blob := input,
            filename := (srcMeta.map Prod.fst).getD "original_image.jpg",
            mime_type := (srcMeta.map Prod.snd).getD "image/jpeg",
            size := original_size }
    else
      .ok { blob := c.file,
            filename := c.filename,
            mime_type := if c.format ≠ "" then "image/" ++ lowerString c.format
                         else (srcMeta.map Prod.snd).getD "image/jpeg",
            size := c.size }

/-- Claim C4 formula as stated by the spec: round the ratio to the nearest
integer, then clamp to the integer range 1..100. -/
def calculate_compression_quality_claim (original_size : Nat) (target_size_mb : ℚ) : Nat :=
  let target_size_bytes : ℚ := target_size_mb * 1024 * 1024
  if target_size_mb ≤ 0 ∨ (original_size : ℚ) ≤ target_size_bytes then 95
  else (max 1 (min 100 (round (100 * target_size_bytes / (original_size : ℚ))))).toNat

/-- Amended C4 formula: the ratio is truncated (floored), not rounded. -/
def calculate_compression_quality_trunc (original_size : Nat) (target_size_mb : ℚ) : Nat :=
  let target_size_bytes : ℚ := target_size_mb * 1024 * 1024
  if target_size_mb ≤ 0 ∨ (original_size : ℚ) ≤ target_size_bytes then 95
  else (max 1 (min 100 ⌊100 * target_size_bytes / (original_size : ℚ)⌋)).toNat

/-- Selection among the standard PNG attempt and the optional reduced
attempt: the candidate of smaller byte length, the standard one on ties or
when the reduced attempt failed. -/
def bestOf (standard : Bytes) : Option Bytes → Bytes
  | some reduced => if reduced.length < standard.length then reduced else standard
  | none => standard

/-- Size bookkeeping invariant for an optional tracked result. -/
def okSize (o : Option CompressResult) : Prop :=
  ∀ b, o = some b → b.size = b.file.length

/-- Encoded size used by the C1 oracle at each quality the loop visits. -/
def c1size (q : Nat) : Nat :=
  if q = 85 then 150 else if q = 43 then 90 else if q = 71 then 140
  else if q = 57 then 130 else if q = 50 then 120 else 200

/-- Oracle for claim C1: a non-PNG image whose encodings at the visited
qualities 85, 43, 71, 57, 50 have sizes 150, 90, 140, 130, 120. -/
def c1env : PilEnv :=
  { decode := fun _ => some (FImg.base (some "JPEG") "RGB" 10 10)
    savePng := fun _ _ => none
    save := fun _ _ q => some (List.replicate (c1size q) 0)
    ts := "T"
    uid := "U" }

/-- Source bytes for claim C1: 150 bytes, above the 100-byte target. -/
def c1file : Bytes := List.replicate 150 0

/-- Oracle for claim C2: every encoding exceeds the target except at
quality 1, which the loop never tries. -/
def c2env : PilEnv :=
  { decode := fun _ => some (FImg.base (some "JPEG") "RGB" 10 10)
    savePng := fun _ _ => none
    save := fun _ _ q => if q = 1 then some (List.replicate 80 7)
                         else some (List.replicate 150 0)
    ts := "T"
    uid := "U" }

/-- Source bytes for claim C2. -/
def c2file : Bytes := List.replicate 150 0

/-- Oracle for the C2 witness: the encode raises at every quality except 1. -/
def c2wenv : PilEnv :=
  { decode := fun _ => some (FImg.base (some "JPEG") "RGB" 10 10)
    savePng := fun _ _ => none
    save := fun _ _ q => if q = 1 then some [3] else none
    ts := "T"
    uid := "U" }

/-- Oracle for claim C3: a quality-95 re-encode produces the single byte 9,
smaller than the input. -/
def c3env : PilEnv :=
  { decode := fun _ => some (FImg.base (some "JPEG") "RGB" 4 4)
    savePng := fun _ _ => none
    save := fun _ _ _ => some [9]
    ts := "T"
    uid := "U" }

/-- Image term for claim C5: an RGB image without alpha channel. -/
def c5img : FImg := FImg.base none "RGB" 20 20

/-- Oracle for claim C6: the adaptive-palette save is one byte, the standard
save two bytes. -/
def c6env : PilEnv :=
  { decode := fun _ => none
    savePng := fun i _ => match i with | .convertP _ _ => some [0] | _ => some [0, 0]
    save := fun _ _ _ => none
    ts := "T"
    uid := "U" }

/-- Image term for claim C6: an RGB image without alpha channel. -/
def c6img : FImg := FImg.base none "RGB" 5 5

/-- Oracle for the C7 witness; the passthrough uses no PIL call. -/
def c7env : PilEnv :=
  { decode := fun _ => none
    savePng := fun _ _ => none
    save := fun _ _ _ => none
    ts := "T"
    uid := "U" }

/-- Oracle for claim C8: a PNG whose best PNG encoding has 110 bytes and
whose JPEG encodes return their quality argument as the single byte. -/
def c8env : PilEnv :=
  { decode := fun _ => some (FImg.base (some "PNG") "RGB" 10 10)
    savePng := fun i _ => match i with | .convertP _ _ => none | _ => some (List.replicate 110 0)
    save := fun _ _ q => some [q]
    ts := "T"
    uid := "U" }

/-- Source bytes for claim C8: 120 bytes, above the 97-byte target. -/
def c8file : Bytes := List.replicate 120 0

/-- Decoded image term of the C8 oracle. -/
def c8img : FImg := FImg.base (some "PNG") "RGB" 10 10

/-- Best PNG result of stages 1-2 under the C8 oracle. -/
def c8png : CompressResult :=
  { file := List.replicate 110 0, format := "PNG", size := 110,
    filename := "compressed_T_U.png", compressed := none }

/-- Oracle for claim C9: every encode inflates the one-byte input to three
bytes. -/
def c9env : PilEnv :=
  { decode := fun _ => some (FImg.base (some "JPEG") "RGB" 2 2)
    savePng := fun _ _ => none
    save := fun _ _ _ => some [5, 5, 5]
    ts := "T"
    uid := "U" }

/-- Oracle for the C10 witness: total decoder and encoders. -/
def c10env : PilEnv :=
  { decode := fun _ => some (FImg.base (some "JPEG") "RGB" 3 3)
    savePng := fun _ _ => some [1, 2]
    save := fun _ _ _ => some [1, 2, 3]
    ts := "T"
    uid := "U" }

/-- PNG-decoding oracle for the C10 witness on the PNG path. -/
def c10penv : PilEnv :=
  { decode := fun _ => some (FImg.base (some "PNG") "RGB" 3 3)
    savePng := fun _ _ => some [1, 2]
    save := fun _ _ _ => some [1, 2, 3]
    ts := "T"
    uid := "U" }

theorem compress_png_size (env : PilEnv) (img : FImg) (q : Nat) (f : String)
    (r : CompressResult) (h : compress_png env img q f = .ok r) :
    r.size = r.file.length := by
  unfold compress_png at h
  simp only [] at h
  split at h
  · cases h
  · cases h
    rfl

theorem compress_image_size (env : PilEnv) (file : Bytes) (q : Nat)
    (r : CompressResult) (h : compress_image env file q = .ok r) :
    r.size = r.file.length := by
  unfold compress_image at h
  split at h
  · cases h
  · simp only [] at h
    split at h
    · exact compress_png_size _ _ _ _ _ h
    · split at h
      · cases h
      · cases h
        rfl

theorem png_stage12_size (env : PilEnv) (file : Bytes) (t : Nat)
    (r : CompressResult) (h : png_stage12 env file t = .ok r) :
    r.size = r.file.length := by
  unfold png_stage12 at h
  split at h
  · cases h
  · rename_i res hres
    split at h
    · split at h
      · rename_i sec hsec
        cases h
        split
        · exact compress_image_size _ _ _ _ hsec
        · exact compress_image_size _ _ _ _ hres
      · cases h
        exact compress_image_size _ _ _ _ hres
    · cases h
      exact compress_image_size _ _ _ _ hres

theorem png_jpeg_fallback_size (env : PilEnv) (img : FImg) (t : Nat)
    (r : CompressResult) (hr : r.size = r.file.length) :
    (png_jpeg_fallback env img t r).size = (png_jpeg_fallback env img t r).file.length := by
  unfold png_jpeg_fallback
  split
  · split
    · exact hr
    · split
      · rfl
      · exact hr
  · exact hr

theorem track_best_size (env : PilEnv) (file : Bytes) (q t : Nat)
    (best : Option CompressResult) (res : CompressResult)
    (hb : okSize best) (hres : compress_image env file q = .ok res) :
    okSize (track_best t best res) := by
  intro b hbm
  unfold track_best at hbm
  cases best with
  | none =>
    cases hbm
    exact compress_image_size _ _ _ _ hres
  | some b0 =>
    simp only [] at hbm
    split at hbm
    · cases hbm
      exact compress_image_size _ _ _ _ hres
    · cases hbm
      exact hb _ rfl

theorem iter_loop_size (env : PilEnv) (file : Bytes) (t : Nat) :
    ∀ (fuel q mq Mq : Nat) (best : Option CompressResult), okSize best →
      (∀ r, iter_loop env file t fuel q mq Mq best = .ret r → r.size = r.file.length) ∧
      (∀ b m, iter_loop env file t fuel q mq Mq best = .done (some b) m →
        b.size = b.file.length) := by
  intro fuel
  induction fuel with
  | zero =>
    intro q mq Mq best hb
    refine ⟨fun r h => ?_, fun b m h => ?_⟩
    · cases h
    · unfold iter_loop at h
      cases h
      exact hb b rfl
  | succ n ih =>
    intro q mq Mq best hb
    refine ⟨fun r h => ?_, fun b m h => ?_⟩
    · unfold iter_loop at h
      split at h
      · cases h
      · rename_i res hres
        simp only [] at h
        have hb2 := track_best_size env file q t best res hb hres
        split at h
        · cases h
        · split at h
          · cases h
            exact compress_image_size _ _ _ _ hres
          · split at h
            · split at h
              · cases h
              · exact (ih _ _ _ _ hb2).1 r h
            · split at h
              · cases h
              · exact (ih _ _ _ _ hb2).1 r h
    · unfold iter_loop at h
      split at h
      · cases h
        exact hb b rfl
      · rename_i res hres
        simp only [] at h
        have hb2 := track_best_size env file q t best res hb hres
        split at h
        · injection h with h1 h2
          exact hb2 b h1
        · split at h
          · cases h
          · split at h
            · split at h
              · injection h with h1 h2
                exact hb2 b h1
              · exact (ih _ _ _ _ hb2).2 b m h
            · split at h
              · injection h with h1 h2
                exact hb2 b h1
              · exact (ih _ _ _ _ hb2).2 b m h

theorem iterative_compress_image_size (env : PilEnv) (file : Bytes) (t iq n : Nat)
    (r : CompressResult) (h : iterative_compress_image env file t iq n = .ok r) :
    r.size = r.file.length := by
  unfold iterative_compress_image at h
  split at h
  · cases h
    rfl
  · split at h
    · cases h
    · split at h
      · split at h
        · cases h
        · rename_i res hres
          cases h
          exact png_jpeg_fallback_size _ _ _ _ (png_stage12_size _ _ _ _ hres)
      · split at h
        · cases h
          rename_i heq
          exact (iter_loop_size env file t n iq 1 100 none (fun b hb => by cases hb)).1 _ heq
        · cases h
          rename_i heq
          exact (iter_loop_size env file t n iq 1 100 none (fun b hb => by cases hb)).2 _ _ heq
        · exact compress_image_size _ _ _ _ h

theorem compress_image_png_format (env : PilEnv) (file : Bytes) (q : Nat) (img : FImg)
    (r : CompressResult) (hd : env.decode file = some img)
    (hf : upperString (effFormat img) = "PNG") (h : compress_image env file q = .ok r) :
    r.format = "PNG" := by
  unfold compress_image at h
  rw [hd] at h
  simp only [] at h
  rw [if_pos hf] at h
  unfold compress_png at h
  simp only [] at h
  split at h
  · cases h
  · cases h
    rfl

theorem png_stage12_png_format (env : PilEnv) (file : Bytes) (t : Nat) (img : FImg)
    (r : CompressResult) (hd : env.decode file = some img)
    (hf : upperString (effFormat img) = "PNG") (h : png_stage12 env file t = .ok r) :
    r.format = "PNG" := by
  unfold png_stage12 at h
  split at h
  · cases h
  · rename_i res hres
    split at h
    · split at h
      · rename_i sec hsec
        cases h
        split
        · exact compress_image_png_format _ _ _ _ _ hd hf hsec
        · exact compress_image_png_format _ _ _ _ _ hd hf hres
      · cases h
        exact compress_image_png_format _ _ _ _ _ hd hf hres
    · cases h
      exact compress_image_png_format _ _ _ _ _ hd hf hres

/-- C7: a source whose byte length is at most the target byte count is
returned unmodified by iterative_compress_image, marked compressed = false,
with filename original_ followed by timestamp, underscore, unique id and
the jpg extension, in particular starting with the prefix original_. -/
theorem c7_passthrough (env : PilEnv) (file : Bytes) (t iq n : Nat)
    (h : file.length ≤ t) :
    iterative_compress_image env file t iq n =
      .ok { file := file, format := "JPEG", size := file.length,
            filename := "original_" ++ env.ts ++ "_" ++ env.uid ++ ".jpg",
            compressed := some false } ∧
    ∃ rest, "original_" ++ env.ts ++ "_" ++ env.uid ++ ".jpg" = "original_" ++ rest := by
  constructor
  · unfold iterative_compress_image
    rw [if_pos h]
  · exact ⟨env.ts ++ "_" ++ env.uid ++ ".jpg", by simp [String.append_assoc]⟩

/-- Witness for C7 at a concrete oracle and input. -/
theorem c7_passthrough_witness :
    ([1, 2] : Bytes).length ≤ 5 ∧
    iterative_compress_image c7env [1, 2] 5 85 5 =
      .ok { file := [1, 2], format := "JPEG", size := 2,
            filename := "original_T_U.jpg", compressed := some false } :=
  ⟨by decide, (c7_passthrough c7env [1, 2] 5 85 5 (by decide)).1⟩

/-- C9: whenever the compression step of the tool entry point returns a
result strictly larger than the original input, the emitted blob message
carries the original bytes, the original size, and the original filename
and mime metadata. -/
theorem c9_safety (env : PilEnv) (input : Bytes) (srcMeta : Option (String × String))
    (t : Nat) (c : CompressResult) (hc : invoke_compress env input t = .ok c)
    (hgt : input.length < c.size) :
    invoke_one env input srcMeta t =
      .ok { blob := input,
            filename := (srcMeta.map Prod.fst).getD "original_image.jpg",
            mime_type := (srcMeta.map Prod.snd).getD "image/jpeg",
            size := input.length } := by
  unfold invoke_one
  rw [hc]
  simp only []
  rw [if_pos hgt]

/-- Witness for C9 at a concrete oracle whose encode inflates the input. -/
theorem c9_safety_witness :
    invoke_compress c9env [1] 0 =
      .ok { file := [5, 5, 5], format := "JPEG", size := 3,
            filename := "compressed_T_U.jpeg", compressed := none } ∧
    (1 : Nat) < 3 ∧
    invoke_one c9env [1] none 0 =
      .ok { blob := [1], filename := "original_image.jpg",
            mime_type := "image/jpeg", size := 1 } :=
  ⟨rfl, by decide, c9_safety c9env [1] none 0
    { file := [5, 5, 5], format := "JPEG", size := 3,
      filename := "compressed_T_U.jpeg", compressed := none } rfl (by decide)⟩

/-- C10: on every successful return path of compress_png, compress_image and
iterative_compress_image, the size field equals the byte length of the file
field. -/
theorem c10_size_eq_length (env : PilEnv) :
    (∀ img q f r, compress_png env img q f = .ok r → r.size = r.file.length) ∧
    (∀ file q r, compress_image env file q = .ok r → r.size = r.file.length) ∧
    (∀ file t iq n r, iterative_compress_image env file t iq n = .ok r →
      r.size = r.file.length) :=
  ⟨fun img q f r h => compress_png_size env img q f r h,
   fun file q r h => compress_image_size env file q r h,
   fun file t iq n r h => iterative_compress_image_size env file t iq n r h⟩

/-- Witness for C10 on concrete runs of all three routines. -/
theorem c10_size_eq_length_witness :
    (compress_image c10env [1, 2, 3, 4] 85 =
      .ok { file := [1, 2, 3], format := "JPEG", size := 3,
            filename := "compressed_T_U.jpeg", compressed := none }) ∧
    (3 : Nat) = ([1, 2, 3] : Bytes).length ∧
    (iterative_compress_image c10penv [1, 2, 3, 4] 2 85 5 =
      .ok { file := [1, 2], format := "PNG", size := 2,
            filename := "compressed_T_U.png", compressed := none }) ∧
    (2 : Nat) = ([1, 2] : Bytes).length ∧
    (compress_png c10penv (FImg.base (some "PNG") "RGB" 3 3) 85 "f" =
      .ok { file := [1, 2], format := "PNG", size := 2,
            filename := "f", compressed := none }) ∧
    (2 : Nat) = ([1, 2] : Bytes).length :=
  ⟨rfl, (c10_size_eq_length c10env).2.1 [1, 2, 3, 4] 85 _ rfl,
   rfl, (c10_size_eq_length c10penv).2.2 [1, 2, 3, 4] 2 85 5 _ rfl,
   rfl, (c10_size_eq_length c10penv).1 (FImg.base (some "PNG") "RGB" 3 3) 85 "f" _ rfl⟩

/-- C1 (code bug): under the c1env oracle with a 100-byte target, the
second iteration (quality 43) produces a 90-byte result at most the target,
yet the loop keeps the first, 150-byte, over-target result as best-so-far
and returns it: the tracked best-so-far is not the largest observed size at
most the target, and an over-target result is retained in preference to an
observed result at most the target.  The visited qualities are 85, 43, 71,
57, 50 with sizes 150, 90, 140, 130, 120. -/
theorem c1_over_target_best_returned :
    iterative_compress_image c1env c1file 100 85 5 =
      .ok { file := List.replicate 150 0, format := "JPEG", size := 150,
            filename := "compressed_T_U.jpeg", compressed := none } ∧
    compress_image c1env c1file 43 =
      .ok { file := List.replicate 90 0, format := "JPEG", size := 90,
            filename := "compressed_T_U.jpeg", compressed := none } ∧
    (90 : Nat) ≤ 100 ∧ (100 : Nat) < 150 :=
  ⟨by decide, by decide, by decide, by decide⟩

/-- C2 counterexample: under the c2env oracle every visited quality (85,
43, 22, 11, 6) encodes to 150 bytes, above the 100-byte target, so no
iteration produces a result at most the target; the claim then demands the
result of a final encode at the lowest bound 1 (80 bytes), but the function
returns the tracked 150-byte first result instead. -/
theorem c2_counterexample :
    compress_image c2env c2file 85 =
      .ok { file := List.replicate 150 0, format := "JPEG", size := 150,
            filename := "compressed_T_U.jpeg", compressed := none } ∧
    compress_image c2env c2file 43 =
      .ok { file := List.replicate 150 0, format := "JPEG", size := 150,
            filename := "compressed_T_U.jpeg", compressed := none } ∧
    compress_image c2env c2file 22 =
      .ok { file := List.replicate 150 0, format := "JPEG", size := 150,
            filename := "compressed_T_U.jpeg", compressed := none } ∧
    compress_image c2env c2file 11 =
      .ok { file := List.replicate 150 0, format := "JPEG", size := 150,
            filename := "compressed_T_U.jpeg", compressed := none } ∧
    compress_image c2env c2file 6 =
      .ok { file := List.replicate 150 0, format := "JPEG", size := 150,
            filename := "compressed_T_U.jpeg", compressed := none } ∧
    (100 : Nat) < 150 ∧
    iterative_compress_image c2env c2file 100 85 5 =
      .ok { file := List.replicate 150 0, format := "JPEG", size := 150,
            filename := "compressed_T_U.jpeg", compressed := none } ∧
    compress_image c2env c2file 1 =
      .ok { file := List.replicate 80 7, format := "JPEG", size := 80,
            filename := "compressed_T_U.jpeg", compressed := none } ∧
    ({ file := List.replicate 150 0, format := "JPEG", size := 150,
       filename := "compressed_T_U.jpeg", compressed := none } : CompressResult) ≠
      { file := List.replicate 80 7, format := "JPEG", size := 80,
        filename := "compressed_T_U.jpeg", compressed := none } :=
  ⟨by decide, by decide, by decide, by decide, by decide, by decide, by decide, by decide,
   by decide⟩

/-- C2 amended: the final encode at the lowest quality bound happens exactly
when no iteration produced any result at all, that is when the first encode
attempt raises; the lowest bound tried is then still 1.  When some iteration
produced a result, the tracked best result (possibly above the target) is
returned instead. -/
theorem c2_fallback_on_first_failure (env : PilEnv) (file : Bytes) (t iq n : Nat)
    (img : FImg) (msg : String)
    (hlen : ¬ file.length ≤ t) (hd : env.decode file = some img)
    (hfmt : upperString (effFormat img) ≠ "PNG")
    (hfail : compress_image env file iq = .error msg) :
    iterative_compress_image env file t iq n = compress_image env file 1 := by
  unfold iterative_compress_image
  rw [if_neg hlen, hd]
  simp only []
  rw [if_neg hfmt]
  cases n with
  | zero => rfl
  | succ m =>
    unfold iter_loop
    rw [hfail]

/-- Witness for C2 at an oracle whose encode raises at the initial quality. -/
theorem c2_fallback_witness :
    ¬ ((c2file : Bytes).length ≤ 100) ∧
    compress_image c2wenv c2file 85 = .error "Image compression failed" ∧
    iterative_compress_image c2wenv c2file 100 85 5 = compress_image c2wenv c2file 1 :=
  ⟨by decide, by decide,
   c2_fallback_on_first_failure c2wenv c2file 100 85 5
     (FImg.base (some "JPEG") "RGB" 10 10) "Image compression failed"
     (by decide) rfl (by decide) (by decide)⟩

/-- C3 counterexample: a three-byte input with a one-mebibyte target is at
most the target, yet the tool re-encodes it at quality 95 and emits the
re-encoded single byte 9, not the input bytes, and no compressed flag exists
on the emitted message. -/
theorem c3_counterexample :
    ([0, 1, 2] : Bytes).length ≤ 1 * 1024 * 1024 ∧
    invoke_one c3env [0, 1, 2] none 1 =
      .ok { blob := [9], filename := "compressed_T_U.jpeg",
            mime_type := "image/jpeg", size := 1 } ∧
    ([9] : Bytes) ≠ [0, 1, 2] :=
  ⟨by decide, by decide, by decide⟩

/-- C3 amended: a source already at most the target is routed to a single
quality-95 re-encode; the emitted bytes are the re-encoded bytes whenever
their size is at most the original, and equal the input bytes only when the
re-encode is strictly larger than the original; no compressed flag is
emitted. -/
theorem c3_under_target_reencode (env : PilEnv) (input : Bytes)
    (srcMeta : Option (String × String)) (t : Nat) (r : CompressResult)
    (hlen : input.length ≤ t * 1024 * 1024)
    (hc : compress_image env input 95 = .ok r) :
    (input.length < r.size →
      invoke_one env input srcMeta t =
        .ok { blob := input,
              filename := (srcMeta.map Prod.fst).getD "original_image.jpg",
              mime_type := (srcMeta.map Prod.snd).getD "image/jpeg",
              size := input.length }) ∧
    (r.size ≤ input.length →
      invoke_one env input srcMeta t =
        .ok { blob := r.file,
              filename := r.filename,
              mime_type := if r.format ≠ "" then "image/" ++ lowerString r.format
                           else (srcMeta.map Prod.snd).getD "image/jpeg",
              size := r.size }) := by
  have hdisp : invoke_compress env input t = compress_image env input 95 := by
    unfold invoke_compress
    rw [if_neg (fun hc2 => absurd hc2.2 (by omega))]
  constructor
  · intro hlt
    unfold invoke_one
    rw [hdisp, hc]
    simp only []
    rw [if_pos hlt]
  · intro hle
    unfold invoke_one
    rw [hdisp, hc]
    simp only []
    rw [if_neg (by omega)]

/-- Witness for C3 amended at the c3env oracle. -/
theorem c3_under_target_reencode_witness :
    ([0, 1, 2] : Bytes).length ≤ 1 * 1024 * 1024 ∧
    compress_image c3env [0, 1, 2] 95 =
      .ok { file := [9], format := "JPEG", size := 1,
            filename := "compressed_T_U.jpeg", compressed := none } ∧
    invoke_one c3env [0, 1, 2] none 1 =
      .ok { blob := [9], filename := "compressed_T_U.jpeg",
            mime_type := "image/jpeg", size := 1 } :=
  ⟨by decide, by decide,
   (c3_under_target_reencode c3env [0, 1, 2] none 1
       { file := [9], format := "JPEG", size := 1,
         filename := "compressed_T_U.jpeg", compressed := none }
       (by decide) (by decide)).2 (by decide)⟩

/-- C4 counterexample: at an original size of 3 MiB and a 2 MiB target the
ratio is 200/3; the code truncates it to quality 66, while the claimed
rounding formula gives 67. -/
theorem c4_counterexample :
    calculate_compression_quality 3145728 2 = 66 ∧
    calculate_compression_quality_claim 3145728 2 = 67 ∧ (66 : Nat) ≠ 67 := by
  refine ⟨?_, ?_, by decide⟩
  · unfold calculate_compression_quality
    rw [if_pos (by norm_num)]
    rw [show ⌊(100 : ℚ) * ((2 : ℚ) * 1024 * 1024) / ((3145728 : Nat) : ℚ)⌋ = (66 : ℤ) by
      rw [Int.floor_eq_iff]
      constructor <;> norm_num]
    decide
  · unfold calculate_compression_quality_claim
    rw [if_neg (by push_neg; constructor <;> norm_num)]
    rw [show round ((100 : ℚ) * ((2 : ℚ) * 1024 * 1024) / ((3145728 : Nat) : ℚ)) = (67 : ℤ) by
      rw [round_eq, Int.floor_eq_iff]
      constructor <;> norm_num]
    decide

/-- C4 amended: calculate_compression_quality returns 95 when the target is
nonpositive or the original size is at most the target in bytes, and
otherwise the ratio 100 * targetBytes / originalSize truncated (floored) and
clamped to the integer range 1..100. -/
theorem c4_truncated_formula (original_size : Nat) (t : ℚ) :
    calculate_compression_quality original_size t =
      calculate_compression_quality_trunc original_size t := by
  unfold calculate_compression_quality calculate_compression_quality_trunc
  by_cases h : 0 < t ∧ t * 1024 * 1024 < (original_size : ℚ)
  · rw [if_pos h, if_neg (by push_neg; exact ⟨h.1, h.2⟩)]
    simp only []
    generalize ⌊(100 : ℚ) * (t * 1024 * 1024) / (original_size : ℚ)⌋ = q
    split_ifs <;> omega
  · rw [if_neg h, if_pos ?_]
    rcases le_or_lt t 0 with h0 | h0
    · exact Or.inl h0
    · exact Or.inr (not_lt.mp fun hlt => h ⟨h0, hlt⟩)

/-- C5 counterexample: at quality exactly 30 the no-alpha branch quantizes
to 128 colors, not the claimed 256. -/
theorem c5_counterexample :
    (png_preprocess c5img 30).quantColors = some 128 ∧
    (png_preprocess c5img 30).quantColors ≠ some 256 :=
  ⟨by decide, by decide⟩

/-- C5 amended: for an image without alpha channel and quality below 60, the
preprocessing converts to RGB and quantizes with 256 colors when quality is
strictly greater than 30 and 128 colors when quality is at most 30 (so at
quality exactly 30 the palette has 128 colors), converting back to RGB. -/
theorem c5_quantize_colors (img : FImg) (q : Nat)
    (hna : img.mode ≠ "RGBA") (hq : q < 60) :
    ∃ j, png_preprocess img q =
        FImg.convert (FImg.quantize j (if 30 < q then 256 else 128)) "RGB" ∧
      j.mode = "RGB" := by
  unfold png_preprocess
  simp only []
  rw [if_neg hna, if_pos hq]
  generalize (if 1500 < max img.width img.height then
      FImg.resize img (img.width * 1500 / max img.width img.height)
        (img.height * 1500 / max img.width img.height)
    else img) = X
  split
  · exact ⟨FImg.convert X "RGB", rfl, rfl⟩
  · rename_i hX
    exact ⟨X, rfl, not_not.mp hX⟩

/-- Witness for C5 amended at a concrete no-alpha image and quality 45. -/
theorem c5_quantize_colors_witness :
    c5img.mode ≠ "RGBA" ∧ (45 : Nat) < 60 ∧
    ∃ j, png_preprocess c5img 45 =
        FImg.convert (FImg.quantize j (if 30 < (45 : Nat) then 256 else 128)) "RGB" ∧
      j.mode = "RGB" :=
  ⟨by decide, by decide, c5_quantize_colors c5img 45 (by decide) (by decide)⟩

/-- C6 counterexample: at quality 85 (at least 50) and no alpha channel only
the standard candidate is produced, and the two-byte standard encoding is
returned even though the adaptive-palette candidate would have been a single
byte: the returned candidate is not the smaller of the two claimed
candidates. -/
theorem c6_counterexample :
    compress_png c6env c6img 85 "f" =
      .ok { file := [0, 0], format := "PNG", size := 2,
            filename := "f", compressed := none } ∧
    c6env.savePng (FImg.convertP (png_preprocess c6img 85) 256) (png_compress_level 85) =
      some [0] ∧
    ([0] : Bytes).length < ([0, 0] : Bytes).length ∧
    ([0, 0] : Bytes) ≠ [0] :=
  ⟨by decide, by decide, by decide, by decide⟩

/-- C6 amended: for an image without alpha channel and quality strictly
below 50, compress_png produces the standard optimized candidate and the
adaptive 256-color palette candidate at the same compression level and
returns whichever is smaller (the standard one on ties); a failure of the
palette candidate is non-fatal and yields the standard candidate alone. -/
theorem c6_candidates (env : PilEnv) (img : FImg) (q : Nat) (f : String) (std : Bytes)
    (hna : img.mode ≠ "RGBA") (hq : q < 50)
    (hstd : env.savePng (png_preprocess img q) (png_compress_level q) = some std) :
    compress_png env img q f =
      .ok { file := bestOf std (env.savePng (FImg.convertP (png_preprocess img q) 256)
                      (png_compress_level q)),
            format := "PNG",
            size := (bestOf std (env.savePng (FImg.convertP (png_preprocess img q) 256)
                      (png_compress_level q))).length,
            filename := f, compressed := none } := by
  unfold compress_png
  simp only []
  rw [hstd]
  simp only []
  rw [if_pos ⟨hq, hna⟩]
  cases hp : env.savePng (FImg.convertP (png_preprocess img q) 256) (png_compress_level q) with
  | none => simp [bestOf, pyMinByLen]
  | some reduced => simp [bestOf, pyMinByLen]

/-- Witness for C6 amended at the c6env oracle and quality 40. -/
theorem c6_candidates_witness :
    c6img.mode ≠ "RGBA" ∧ (40 : Nat) < 50 ∧
    c6env.savePng (png_preprocess c6img 40) (png_compress_level 40) = some [0, 0] ∧
    compress_png c6env c6img 40 "f" =
      .ok { file := bestOf [0, 0] (c6env.savePng (FImg.convertP (png_preprocess c6img 40) 256)
              (png_compress_level 40)),
            format := "PNG",
            size := (bestOf [0, 0] (c6env.savePng (FImg.convertP (png_preprocess c6img 40) 256)
              (png_compress_level 40))).length,
            filename := "f", compressed := none } :=
  ⟨by decide, by decide, by decide,
   c6_candidates c6env c6img 40 "f" [0, 0] (by decide) (by decide) (by decide)⟩

/-- C8 counterexample: target 97, best PNG size 110 — the claimed quality
clamp(round(70 * 97 / 110), 40, 70) is 62, but the code truncates the ratio
and encodes at quality 61, returning the oracle byte 61 instead of 62. -/
theorem c8_counterexample :
    iterative_compress_image c8env c8file 97 85 5 =
      .ok { file := [61], format := "JPEG", size := 1,
            filename := "compressed_T_U.jpg", compressed := none } ∧
    (70 * 97 / 110 : Nat) = 61 ∧
    round ((70 * 97 : ℚ) / 110) = 62 ∧
    c8env.save (FImg.convert c8img "RGB") "JPEG" 62 = some [62] ∧
    ([61] : Bytes) ≠ [62] := by
  refine ⟨by decide, by decide, ?_, by decide, by decide⟩
  rw [round_eq, Int.floor_eq_iff]
  constructor <;> norm_num

/-- C8 amended: in the PNG escalation the JPEG stage runs only when the best
PNG result still exceeds the target and the image mode is not RGBA, at
quality max(min(70, trunc(70 * target / pngSize)), 40) (truncation, not
rounding); the JPEG replaces the PNG result exactly when its size is
strictly below 0.8 times the PNG size; a failing JPEG encode keeps the PNG
result; and an RGBA image always keeps the PNG-format result. -/
theorem c8_jpeg_stage (env : PilEnv) (file : Bytes) (t iq n : Nat) (img : FImg)
    (r : CompressResult)
    (hlen : ¬ file.length ≤ t) (hd : env.decode file = some img)
    (hfmt : upperString (effFormat img) = "PNG")
    (hstg : png_stage12 env file t = .ok r) :
    iterative_compress_image env file t iq n = .ok (png_jpeg_fallback env img t r) ∧
    (img.mode = "RGBA" → png_jpeg_fallback env img t r = r ∧ r.format = "PNG") ∧
    (r.size ≤ t → png_jpeg_fallback env img t r = r) ∧
    (img.mode ≠ "RGBA" → t < r.size →
      (env.save (FImg.convert img "RGB") "JPEG"
          (max (min 70 (70 * t / r.size)) 40) = none →
        png_jpeg_fallback env img t r = r) ∧
      (∀ jb, env.save (FImg.convert img "RGB") "JPEG"
          (max (min 70 (70 * t / r.size)) 40) = some jb →
        png_jpeg_fallback env img t r =
          if 5 * jb.length < 4 * r.size then
            { file := jb, format := "JPEG", size := jb.length,
              filename := "compressed_" ++ env.ts ++ "_" ++ env.uid ++ ".jpg",
              compressed := none }
          else r)) := by
  refine ⟨?_, ?_, ?_, ?_⟩
  · unfold iterative_compress_image
    rw [if_neg hlen, hd]
    simp only []
    rw [if_pos hfmt, hstg]
  · intro halpha
    refine ⟨?_, png_stage12_png_format _ _ _ _ _ hd hfmt hstg⟩
    unfold png_jpeg_fallback
    rw [if_neg (fun hcon => absurd halpha hcon.2)]
  · intro hle
    unfold png_jpeg_fallback
    rw [if_neg (fun hcon => absurd hcon.1 (by omega))]
  · intro hna hlt
    constructor
    · intro hnone
      unfold png_jpeg_fallback
      rw [if_pos ⟨hlt, hna⟩, hnone]
    · intro jb hjb
      unfold png_jpeg_fallback
      rw [if_pos ⟨hlt, hna⟩, hjb]

/-- Witness for C8 amended at the c8env oracle: the escalation result of
iterative_compress_image is the JPEG-stage outcome applied to the 110-byte
PNG result. -/
theorem c8_jpeg_stage_witness :
    ¬ ((c8file : Bytes).length ≤ 97) ∧
    png_stage12 c8env c8file 97 = .ok c8png ∧
    iterative_compress_image c8env c8file 97 85 5 =
      .ok (png_jpeg_fallback c8env c8img 97 c8png) :=
  ⟨by decide, by decide,
   (c8_jpeg_stage c8env c8file 97 85 5 c8img c8png (by decide) rfl (by decide)
     (by decide)).1⟩
